import Mathlib

/-!
Verification of the polling/retry/deduplication core of `bin/rbnspots.py`
(repository rshk/hamradio).

The script is embedded shallowly:

* `OutputController` (source lines 60-79) becomes a one-field state record;
  its methods become pure functions returning the new state together with a
  list of `OutEvent`s describing what was written to the two terminal
  channels (stdout = normal lines, stderr = status lines and the
  cursor-up-and-clear control sequence).
* `get_spots` (lines 184-201) is embedded as a recursion over the retry
  budget.  The network call `_get_spots` is abstracted as an oracle
  `fetch : Nat -> FetchResult` indexed by the attempt number; `FetchResult`
  distinguishes success, an HTTP-level failure (the `RequestFailed`
  exception, retryable) and a payload decode failure (any other exception
  raised by `response.json()` / `parse_response`, not retryable).  The
  embedding additionally returns how many times the oracle was invoked.
* one iteration of the `watch` loop body (lines 207-233) becomes
  `watch_body`; the result is an `Option` so that an uncaught exception
  (a `KeyError` from `format_spot`) is modelled as `none`.
* the formatters (lines 236-293) are embedded over `Int`/`Rat`; Python
  `Decimal` values are modelled as rationals, `int(...)` as truncation
  toward zero and Decimal `%` as the remainder with the dividend's sign.
  Dictionary lookup, which can raise `KeyError`, returns an `Option`.
-/

/-- One observable write of the script: a line on stdout, a line on stderr
(the status channel, with its red-styling flag), or the
cursor-up-and-erase control sequence sent to stderr by
`OutputController._clear_status`. -/
inductive OutEvent where
  | normalLine (text : String)
  | statusLine (text : String) (error : Bool)
  | eraseStatus
deriving DecidableEq, Repr

/-- State of `OutputController` (source line 60): the single boolean
attribute `last_is_status` set in `__init__`. -/
structure OutputController where
  last_is_status : Bool
deriving DecidableEq, Repr

/-- `OutputController._clear_status` (lines 65-68): if the last write was a
status line, emit the erase control sequence; in all cases reset the flag. -/
def clear_status (oc : OutputController) : OutputController × List OutEvent :=
  if oc.last_is_status then (⟨false⟩, [OutEvent.eraseStatus]) else (⟨false⟩, [])

/-- `OutputController.print_status` (lines 70-75): clear any previous status
line, write `text` on the status channel (styled red when `error`), and
record that the last write was a status line. -/
def print_status (oc : OutputController) (text : String) (error : Bool) :
    OutputController × List OutEvent :=
  let c := clear_status oc
  (⟨true⟩, c.2 ++ [OutEvent.statusLine text error])

/-- `OutputController.echo` (lines 77-79): clear any previous status line and
write `text` on the normal output channel. -/
def echo (oc : OutputController) (text : String) : OutputController × List OutEvent :=
  let c := clear_status oc
  (c.1, c.2 ++ [OutEvent.normalLine text])

/-- The texts written on the normal output channel, in order. -/
def normalTexts (evs : List OutEvent) : List String :=
  evs.filterMap fun e =>
    match e with
    | OutEvent.normalLine t => some t
    | _ => none

/-- The texts written on the status channel, in order. -/
def statusTexts (evs : List OutEvent) : List String :=
  evs.filterMap fun e =>
    match e with
    | OutEvent.statusLine t _ => some t
    | _ => none

/-- Number of erase control sequences in an event list. -/
def countErase : List OutEvent → Nat
  | [] => 0
  | OutEvent.eraseStatus :: rest => countErase rest + 1
  | _ :: rest => countErase rest

/-- The status-line text currently visible on the terminal after replaying a
list of events: a status line makes its text visible, the erase sequence
removes the visible status line, normal lines do not touch it. -/
def visibleStatus (evs : List OutEvent) : Option String :=
  evs.foldl
    (fun acc e =>
      match e with
      | OutEvent.statusLine t _ => some t
      | OutEvent.eraseStatus => none
      | OutEvent.normalLine _ => acc)
    none

/-- An adjacent pair of events is bad exactly when a normal output line is
immediately followed by the erase sequence (the erase would destroy a
normal line instead of a status line). -/
def pairOk : OutEvent → OutEvent → Bool
  | OutEvent.normalLine _, OutEvent.eraseStatus => false
  | _, _ => true

/-- No normal output line is immediately followed by an erase sequence. -/
def noEraseAfterNormal : List OutEvent → Bool
  | a :: b :: rest => pairOk a b && noEraseAfterNormal (b :: rest)
  | _ => true

/-- One call into the output controller: `print_status(text, error)` or
`echo(text)`. -/
inductive OutCall where
  | callStatus (text : String) (error : Bool)
  | callEcho (text : String)
deriving DecidableEq, Repr

/-- Dispatch one call to the corresponding controller method. -/
def stepCall (oc : OutputController) : OutCall → OutputController × List OutEvent
  | OutCall.callStatus t e => print_status oc t e
  | OutCall.callEcho t => echo oc t

/-- Run a sequence of controller calls, concatenating the emitted events. -/
def runCalls (oc : OutputController) : List OutCall → OutputController × List OutEvent
  | [] => (oc, [])
  | c :: rest =>
    let s := stepCall oc c
    let r := runCalls s.1 rest
    (r.1, s.2 ++ r.2)

/-- The texts passed to `echo` in a call sequence, in order. -/
def echoTexts (trace : List OutCall) : List String :=
  trace.filterMap fun c =>
    match c with
    | OutCall.callEcho t => some t
    | _ => none

/-- A `datetime` value as used by the script (UTC, second precision). -/
structure Datetime where
  year : Nat
  month : Nat
  day : Nat
  hour : Nat
  minute : Nat
  second : Nat
deriving DecidableEq, Repr

/-- Left-pad a string with `c` up to width `w` (no truncation), as Python
format specs such as `>4` and `03d` do for short inputs. -/
def padLeftWith (c : Char) (w : Nat) (s : String) : String :=
  String.mk (List.replicate (w - s.length) c) ++ s

/-- Right-pad a string with spaces up to width `w` (no truncation), as the
Python format spec `<10s` does for short inputs. -/
def padRightSpaces (w : Nat) (s : String) : String :=
  s ++ String.mk (List.replicate (w - s.length) ' ')

/-- `strftime` with format string `%Y-%m-%d %H:%M:%S` (lines 217 and 242). -/
def formatDatetime (d : Datetime) : String :=
  padLeftWith '0' 4 (toString d.year) ++ "-" ++
  padLeftWith '0' 2 (toString d.month) ++ "-" ++
  padLeftWith '0' 2 (toString d.day) ++ " " ++
  padLeftWith '0' 2 (toString d.hour) ++ ":" ++
  padLeftWith '0' 2 (toString d.minute) ++ ":" ++
  padLeftWith '0' 2 (toString d.second)

/-- `CallInfo` (lines 91-100); latitude/longitude floats are modelled as
rationals. -/
structure CallInfo where
  callsign : String
  country_prefix : String
  country_name : String
  continent : String
  country_tld : String
  itu_zone : Int
  cq_zone : Int
  latitude : ℚ
  longitude : ℚ
deriving DecidableEq, Repr

/-- `SpotInfo` (lines 103-110); the `Decimal` frequency is modelled as a
rational. -/
structure SpotInfo where
  id : String
  spot_de : String
  frequency : ℚ
  spot_dx : String
  snr : Int
  speed : Int
  timestamp : Datetime
deriving DecidableEq, Repr

/-- `Response` (lines 113-115): the callsign dictionary is modelled as a
partial lookup function (a Python dict access can raise `KeyError`). -/
structure Response where
  callsigns : String → Option CallInfo
  spots : List SpotInfo

/-- Python `int(q)`: truncation toward zero. -/
def int_of (q : ℚ) : Int :=
  if q < 0 then ⌈q⌉ else ⌊q⌋

/-- Python `Decimal` remainder `a % b`: `a - b * int(a / b)`, which carries
the sign of the dividend. -/
def decimal_mod (a b : ℚ) : ℚ :=
  a - b * (int_of (a / b) : ℚ)

/-- `format_frequency` (lines 267-278). -/
def format_frequency (freq : ℚ) : String :=
  let f_mhz := int_of (freq / 1000)
  let f_khz := int_of (decimal_mod freq 1000)
  let f_hz := int_of (decimal_mod freq 1)
  "\x1b[1;38;5;49m" ++ padLeftWith ' ' 4 (toString f_mhz) ++ "." ++
  "\x1b[1;38;5;37m" ++ padLeftWith '0' 3 (toString f_khz) ++
  "\x1b[0;38;5;31m" ++ padLeftWith '0' 3 (toString f_hz) ++
  "\x1b[0m" ++ " MHz"

/-- The `colors` table of `_get_power_color` (lines 282-286), verbatim. -/
def powerColors : List Nat :=
  [55, 19, 19, 19, 19, 19, 19, 19, 19, 19, 19, 25, 25, 25, 25, 25,
   31, 31, 31, 31, 31, 36, 36, 36, 36, 36, 35, 35, 35, 35, 35, 34,
   34, 34, 34, 34, 34, 34, 34, 34, 34, 70, 70, 70, 70, 70, 106, 106,
   106, 106, 106, 136, 136, 136, 136, 136, 130, 130, 130, 130, 130,
   124, 124, 124, 124]

/-- The index expression `min(max(0, power), len(colors) - 1)` of line 288. -/
def powerIndex (power : Int) : Nat :=
  (min (max 0 power) ((powerColors.length : Int) - 1)).toNat

/-- `_get_power_color` (lines 281-288); the list access is modelled with
`get?` so an out-of-bounds index would show up as `none`. -/
def get_power_color (power : Int) : Option Nat :=
  powerColors.get? (powerIndex power)

/-- `format_power` (lines 291-293). -/
def format_power (power : Int) : Option String :=
  (get_power_color power).map fun color =>
    "\x1b[48;5;" ++ toString color ++ "m " ++
    padLeftWith ' ' 2 (toString power) ++ " dB \x1b[0m"

/-- `get_distance` fallback used when geopy is absent (lines 56-57); the
geopy variant is an external-library float computation and is treated as a
collaborator, so `format_spot` below is parametrized over the distance
function and this fallback instantiates it in concrete examples. -/
def get_distance (p1 p2 : ℚ × ℚ) : String :=
  "N/A"

/-- `format_spot` (lines 236-264).  The two dictionary accesses
`callsigns[spot.spot_dx]` and `callsigns[spot.spot_de]` can raise
`KeyError`; a missing key therefore yields `none`. -/
def format_spot (gd : ℚ × ℚ → ℚ × ℚ → String) (spot : SpotInfo)
    (callsigns : String → Option CallInfo) : Option String :=
  match callsigns spot.spot_dx with
  | none => none
  | some dx_call =>
    match callsigns spot.spot_de with
    | none => none
    | some de_call =>
      (format_power spot.snr).map fun power =>
        "\x1b[34m" ++ formatDatetime spot.timestamp ++ "\x1b[0m " ++
        "\x1b[1m" ++ padRightSpaces 10 spot.spot_de ++ "\x1b[0m " ++
        "\x1b[38;5;244m" ++ padRightSpaces 10 spot.spot_dx ++ "\x1b[0m " ++
        format_frequency spot.frequency ++ "  " ++
        power ++ "  " ++
        padLeftWith ' ' 2 (toString spot.speed) ++ " wpm  " ++
        "\x1b[38;5;202m" ++ de_call.country_name ++ "\x1b[0m " ++
        "\x1b[32mITU:\x1b[1;32m" ++ toString de_call.itu_zone ++ "\x1b[0m " ++
        "\x1b[32mCQ:\x1b[1;32m" ++ toString de_call.cq_zone ++ "\x1b[0m " ++
        "\x1b[36m" ++ toString de_call.latitude ++ "," ++
        toString de_call.longitude ++ "\x1b[0m " ++
        "(" ++ gd (dx_call.latitude, dx_call.longitude)
                  (de_call.latitude, de_call.longitude) ++ " km)"

/-- Outcome of one invocation of the underlying fetch `_get_spots`
(lines 167-181): a parsed response, the `RequestFailed` exception carrying
the HTTP status code (retryable), or a payload decode failure raised by
`response.json()` / `parse_response` (not retryable). -/
inductive FetchResult (α : Type) where
  | ok (resp : α)
  | requestFailed (code : Nat)
  | decodeFailed
deriving DecidableEq, Repr

/-- The exception that `get_spots` lets escape to its caller. -/
inductive FetchError where
  | requestFailed (code : Nat)
  | decodeFailed
deriving DecidableEq, Repr

/-- The backoff loop `for x in range(retry_time)` of lines 191-197: one red
status update per remaining second, counting down from `retry_time` to 1,
each followed by a one-second sleep. -/
def retry_countdown (oc : OutputController) (code : Nat) :
    Nat → OutputController × List OutEvent
  | 0 => (oc, [])
  | k + 1 =>
    let p := print_status oc
      ("Request failed with code " ++ toString code ++ ". Retry in " ++
        toString (k + 1) ++ " seconds...") true
    let r := retry_countdown p.1 code k
    (r.1, p.2 ++ r.2)

/-- The texts that one backoff countdown writes, in emission order: the
retry message for `k` seconds down to 1 second (`retry_time - x` for
`x in range(retry_time)` at line 194). -/
def countdownMsgs (code : Nat) : Nat → List String
  | 0 => []
  | k + 1 =>
    ("Request failed with code " ++ toString code ++ ". Retry in " ++
      toString (k + 1) ++ " seconds...") :: countdownMsgs code k

/-- The total number of backoff status updates `get_spots` emits across
`R` countdowns when the first countdown lasts `T` units: the recursive
call at line 199 does not forward `retry_time`, so every countdown after
the first reverts to the default `retry_time = 3`. -/
def backoffTotal (R T : Nat) : Nat :=
  match R with
  | 0 => 0
  | r + 1 => T + r * 3

/-- `get_spots` (lines 184-201).  `fetch n` is the result of the `n`-th
invocation of `_get_spots`; the returned quadruple is (result, number of
`_get_spots` invocations, final output-controller state, emitted events).
A `RequestFailed` with `retries > 0` runs the countdown and recurses with
the budget decremented; with `retries == 0` it re-raises; a decode failure
is not caught by the `except RequestFailed` clause and propagates at once.
The recursive call at line 199, `get_spots(*args, retries=(retries - 1),
**kwargs)`, passes `retries` but not `retry_time` (a keyword parameter
with default 3, so it is not captured by `**kwargs`): the recursion
therefore counts down from the default 3, not from the caller's
`retry_time`. -/
def get_spots {α : Type} (fetch : Nat → FetchResult α) (retries retry_time : Nat)
    (oc : OutputController) :
    Except FetchError α × Nat × OutputController × List OutEvent :=
  match fetch 0 with
  | FetchResult.ok resp => (Except.ok resp, 1, oc, [])
  | FetchResult.decodeFailed => (Except.error FetchError.decodeFailed, 1, oc, [])
  | FetchResult.requestFailed code =>
    match retries with
    | 0 => (Except.error (FetchError.requestFailed code), 1, oc, [])
    | r + 1 =>
      let cd := retry_countdown oc code retry_time
      let rest := get_spots (fun i => fetch (i + 1)) r 3 cd.1
      (rest.1, rest.2.1 + 1, rest.2.2.1, cd.2 ++ rest.2.2.2)

/-- What the `try` of the watch body observed from `get_spots`: a response,
or the `RequestFailed` exception after the retry budget was exhausted. -/
inductive WatchOutcome where
  | success (resp : Response)
  | failed

/-- Line 219-221: `new_spots = [spot for spot in resp.spots if spot.id not
in old_spots]`. -/
def new_spots_of (seen : Finset String) (resp : Response) : List SpotInfo :=
  resp.spots.filter fun spot => decide (spot.id ∉ seen)

/-- The identifiers of a list of spots, in order. -/
def spot_ids (l : List SpotInfo) : List String :=
  l.map SpotInfo.id

/-- The `for spot in new_spots` loop of lines 227-229: format the spot
(`KeyError` gives `none`), echo the line, add the id to the seen set. -/
def watch_emit (gd : ℚ × ℚ → ℚ × ℚ → String)
    (callsigns : String → Option CallInfo) :
    List SpotInfo → Finset String → OutputController →
    Option (Finset String × OutputController × List OutEvent)
  | [], seen, oc => some (seen, oc, [])
  | spot :: rest, seen, oc =>
    match format_spot gd spot callsigns with
    | none => none
    | some line =>
      let e := echo oc line
      match watch_emit gd callsigns rest (insert spot.id seen) e.1 with
      | none => none
      | some r => some (r.1, r.2.1, e.2 ++ r.2.2)

/-- One iteration of the `while True` body of `watch` (lines 207-233),
after `get_spots` has either produced a response or raised `RequestFailed`
(`timestamp` is the formatted `datetime.utcnow()` of line 217).  `none`
models an exception escaping the loop body. -/
def watch_body (gd : ℚ × ℚ → ℚ × ℚ → String) (seen : Finset String)
    (oc : OutputController) (timestamp : String) :
    WatchOutcome → Option (Finset String × OutputController × List OutEvent)
  | WatchOutcome.failed =>
    let p := print_status oc "All requests failed" true
    some (seen, p.1, p.2)
  | WatchOutcome.success resp =>
    let new_spots := new_spots_of seen resp
    if new_spots.length > 0 then
      let h := echo oc
        ("Received " ++ toString new_spots.length ++ " new spots at " ++ timestamp)
      match watch_emit gd resp.callsigns new_spots seen h.1 with
      | none => none
      | some r =>
        let p := print_status r.2.1 ("Latest update: " ++ timestamp) false
        some (r.1, p.1, h.2 ++ r.2.2 ++ p.2)
    else
      let p := print_status oc ("Latest update: " ++ timestamp) false
      some (seen, p.1, p.2)

/-- Sample timestamp for concrete runs. -/
def sampleDatetime : Datetime :=
  ⟨2024, 1, 1, 0, 0, 0⟩

/-- A concrete spot with identifier "x". -/
def spotX : SpotInfo :=
  ⟨"x", "K1TTT", 7025, "W1AW", 20, 25, sampleDatetime⟩

/-- A concrete spot with identifier "y". -/
def spotY : SpotInfo :=
  ⟨"y", "K1TTT", 7026, "W1AW", 15, 22, sampleDatetime⟩

/-- A callsign directory containing both callsigns used by the sample
spots. -/
def sampleCallsigns : String → Option CallInfo := fun c =>
  if c = "K1TTT" ∨ c = "W1AW" then
    some ⟨c, "K", "United States", "NA", "us", 8, 5, 42, -72⟩
  else none

/-- An empty callsign directory: every lookup raises `KeyError`. -/
def noCallsigns : String → Option CallInfo := fun _ => none

/-- A sample response carrying the two sample spots. -/
def sampleResp : Response :=
  ⟨sampleCallsigns, [spotX, spotY]⟩

/-- The event list inside an optional watch-body result (empty when the
body crashed). -/
def eventsOf (x : Option (Finset String × OutputController × List OutEvent)) :
    List OutEvent :=
  (x.map fun r => r.2.2).getD []

/-- A response carrying only the spot with identifier "x". -/
def respOne : Response :=
  ⟨sampleCallsigns, [spotX]⟩

/-- The directory entry for "W1AW" in `sampleCallsigns`. -/
def sampleCallW : CallInfo :=
  ⟨"W1AW", "K", "United States", "NA", "us", 8, 5, 42, -72⟩

/-- The directory entry for "K1TTT" in `sampleCallsigns`. -/
def sampleCallK : CallInfo :=
  ⟨"K1TTT", "K", "United States", "NA", "us", 8, 5, 42, -72⟩

/-- A seen-set already containing both sample identifiers. -/
def seenXY : Finset String :=
  insert "x" (insert "y" (∅ : Finset String))

/-- A fetch oracle that fails with HTTP status 500 on every attempt. -/
def constFailFetch : Nat → FetchResult Response :=
  fun _ => FetchResult.requestFailed 500

/-- A fetch oracle whose first attempt raises a payload decode failure. -/
def constDecodeFetch : Nat → FetchResult Response :=
  fun _ => FetchResult.decodeFailed

/-- A fetch oracle that succeeds immediately with the sample response. -/
def constOkFetch : Nat → FetchResult Response :=
  fun _ => FetchResult.ok sampleResp

/-! ### Helper lemmas about the output controller and event lists -/

@[simp]
theorem normalTexts_nil : normalTexts [] = [] := rfl

@[simp]
theorem normalTexts_cons_normal (t : String) (evs : List OutEvent) :
    normalTexts (OutEvent.normalLine t :: evs) = t :: normalTexts evs := rfl

@[simp]
theorem normalTexts_cons_status (t : String) (e : Bool) (evs : List OutEvent) :
    normalTexts (OutEvent.statusLine t e :: evs) = normalTexts evs := rfl

@[simp]
theorem normalTexts_cons_erase (evs : List OutEvent) :
    normalTexts (OutEvent.eraseStatus :: evs) = normalTexts evs := rfl

@[simp]
theorem normalTexts_append (a b : List OutEvent) :
    normalTexts (a ++ b) = normalTexts a ++ normalTexts b :=
  List.filterMap_append a b _

@[simp]
theorem statusTexts_nil : statusTexts [] = [] := rfl

@[simp]
theorem statusTexts_cons_normal (t : String) (evs : List OutEvent) :
    statusTexts (OutEvent.normalLine t :: evs) = statusTexts evs := rfl

@[simp]
theorem statusTexts_cons_status (t : String) (e : Bool) (evs : List OutEvent) :
    statusTexts (OutEvent.statusLine t e :: evs) = t :: statusTexts evs := rfl

@[simp]
theorem statusTexts_cons_erase (evs : List OutEvent) :
    statusTexts (OutEvent.eraseStatus :: evs) = statusTexts evs := rfl

@[simp]
theorem statusTexts_append (a b : List OutEvent) :
    statusTexts (a ++ b) = statusTexts a ++ statusTexts b :=
  List.filterMap_append a b _

theorem print_status_eq (oc : OutputController) (t : String) (e : Bool) :
    print_status oc t e =
      (⟨true⟩, (if oc.last_is_status then [OutEvent.eraseStatus] else []) ++
        [OutEvent.statusLine t e]) := by
  cases oc with
  | mk b => cases b <;> rfl

theorem echo_eq (oc : OutputController) (t : String) :
    echo oc t =
      (⟨false⟩, (if oc.last_is_status then [OutEvent.eraseStatus] else []) ++
        [OutEvent.normalLine t]) := by
  cases oc with
  | mk b => cases b <;> rfl

@[simp]
theorem echoTexts_nil : echoTexts [] = [] := rfl

@[simp]
theorem echoTexts_cons_status (t : String) (e : Bool) (trace : List OutCall) :
    echoTexts (OutCall.callStatus t e :: trace) = echoTexts trace := rfl

@[simp]
theorem echoTexts_cons_echo (t : String) (trace : List OutCall) :
    echoTexts (OutCall.callEcho t :: trace) = t :: echoTexts trace := rfl

theorem runCalls_cons (oc : OutputController) (c : OutCall) (rest : List OutCall) :
    runCalls oc (c :: rest) =
      ((runCalls (stepCall oc c).1 rest).1,
        (stepCall oc c).2 ++ (runCalls (stepCall oc c).1 rest).2) := rfl

theorem runCalls_normalTexts (trace : List OutCall) :
    ∀ oc : OutputController, normalTexts (runCalls oc trace).2 = echoTexts trace := by
  induction trace with
  | nil => intro oc; rfl
  | cons c rest ih =>
    intro oc
    rw [runCalls_cons]
    cases c with
    | callStatus t e =>
      simp only [stepCall, print_status_eq, normalTexts_append, ih,
        echoTexts_cons_status]
      cases oc.last_is_status <;> simp
    | callEcho t =>
      simp only [stepCall, echo_eq, normalTexts_append, ih, echoTexts_cons_echo]
      cases oc.last_is_status <;> simp

theorem noErase_cons (a : OutEvent) (l : List OutEvent)
    (ha : ∀ t, a = OutEvent.normalLine t → l.head? ≠ some OutEvent.eraseStatus)
    (hl : noEraseAfterNormal l = true) : noEraseAfterNormal (a :: l) = true := by
  cases l with
  | nil => cases a <;> rfl
  | cons b r =>
    have hpair : pairOk a b = true := by
      cases a with
      | normalLine t =>
        cases b with
        | eraseStatus => exact absurd rfl (ha t rfl)
        | normalLine t2 => rfl
        | statusLine t2 e2 => rfl
      | statusLine t e => rfl
      | eraseStatus => rfl
    simp [noEraseAfterNormal, hpair, hl]

theorem runCalls_noErase (trace : List OutCall) :
    ∀ oc : OutputController,
      noEraseAfterNormal (runCalls oc trace).2 = true ∧
        ((runCalls oc trace).2.head? = some OutEvent.eraseStatus →
          oc.last_is_status = true) := by
  induction trace with
  | nil =>
    intro oc
    refine ⟨rfl, fun h => ?_⟩
    simp [runCalls] at h
  | cons c rest ih =>
    intro oc
    obtain ⟨ih1, ih2⟩ := ih (stepCall oc c).1
    rw [runCalls_cons]
    cases c with
    | callStatus t e =>
      have hstep : stepCall oc (OutCall.callStatus t e) =
          (⟨true⟩, (if oc.last_is_status then [OutEvent.eraseStatus] else []) ++
            [OutEvent.statusLine t e]) := print_status_eq oc t e
      rw [hstep] at ih1 ih2 ⊢
      cases hoc : oc.last_is_status with
      | false =>
        simp only [hoc, if_neg Bool.false_ne_true, List.nil_append]
        constructor
        · exact noErase_cons _ _ (fun t2 h2 => by cases h2) ih1
        · intro h; cases h
      | true =>
        simp only [hoc, if_pos rfl, List.cons_append, List.nil_append]
        constructor
        · refine noErase_cons _ _ (fun t2 h2 => by cases h2) ?_
          exact noErase_cons _ _ (fun t2 h2 => by cases h2) ih1
        · intro _; trivial
    | callEcho t =>
      have hstep : stepCall oc (OutCall.callEcho t) =
          (⟨false⟩, (if oc.last_is_status then [OutEvent.eraseStatus] else []) ++
            [OutEvent.normalLine t]) := echo_eq oc t
      rw [hstep] at ih1 ih2 ⊢
      have hnext : (runCalls (⟨false⟩ : OutputController) rest).2.head? ≠
          some OutEvent.eraseStatus := by
        intro h
        have := ih2 h
        simp at this
      cases hoc : oc.last_is_status with
      | false =>
        simp only [hoc, if_neg Bool.false_ne_true, List.nil_append]
        constructor
        · exact noErase_cons _ _ (fun t2 h2 => hnext) ih1
        · intro h; cases h
      | true =>
        simp only [hoc, if_pos rfl, List.cons_append, List.nil_append]
        constructor
        · refine noErase_cons _ _ (fun t2 h2 => by cases h2) ?_
          exact noErase_cons _ _ (fun t2 h2 => hnext) ih1
        · intro _; trivial

/-! ### Status texts of the individual controller methods -/

theorem statusTexts_print_status (oc : OutputController) (t : String) (e : Bool) :
    statusTexts (print_status oc t e).2 = [t] := by
  rw [print_status_eq]
  cases oc.last_is_status <;> simp

theorem normalTexts_print_status (oc : OutputController) (t : String) (e : Bool) :
    normalTexts (print_status oc t e).2 = [] := by
  rw [print_status_eq]
  cases oc.last_is_status <;> simp

theorem statusTexts_echo (oc : OutputController) (t : String) :
    statusTexts (echo oc t).2 = [] := by
  rw [echo_eq]
  cases oc.last_is_status <;> simp

theorem normalTexts_echo (oc : OutputController) (t : String) :
    normalTexts (echo oc t).2 = [t] := by
  rw [echo_eq]
  cases oc.last_is_status <;> simp

theorem print_status_fst (oc : OutputController) (t : String) (e : Bool) :
    (print_status oc t e).1 = ⟨true⟩ := rfl

theorem echo_fst (oc : OutputController) (t : String) :
    (echo oc t).1 = ⟨false⟩ := by
  rw [echo_eq]

/-! ### The retry policy -/

theorem retry_countdown_statusTexts (code : Nat) :
    ∀ (k : Nat) (oc : OutputController),
      statusTexts (retry_countdown oc code k).2 = countdownMsgs code k := by
  intro k
  induction k with
  | zero => intro oc; rfl
  | succ n ih =>
    intro oc
    simp only [retry_countdown, statusTexts_append, countdownMsgs,
      statusTexts_print_status, ih, List.singleton_append]

theorem countdownMsgs_length (code : Nat) :
    ∀ k : Nat, (countdownMsgs code k).length = k := by
  intro k
  induction k with
  | zero => rfl
  | succ n ih => simp [countdownMsgs, ih]

theorem backoffTotal_default (r : Nat) : backoffTotal r 3 = r * 3 := by
  cases r with
  | zero => rfl
  | succ s =>
    show 3 + s * 3 = (s + 1) * 3
    ring

theorem get_spots_allfail {α : Type} :
    ∀ (R : Nat) (fetch : Nat → FetchResult α) (T : Nat) (oc : OutputController),
      (∀ n, ∃ code, fetch n = FetchResult.requestFailed code) →
      ∃ code oc2 evs,
        get_spots fetch R T oc =
          (Except.error (FetchError.requestFailed code), R + 1, oc2, evs) ∧
        (statusTexts evs).length = backoffTotal R T := by
  intro R
  induction R with
  | zero =>
    intro fetch T oc hfail
    obtain ⟨code, h0⟩ := hfail 0
    refine ⟨code, oc, [], ?_, ?_⟩
    · simp only [get_spots, h0]
    · simp [backoffTotal]
  | succ r ih =>
    intro fetch T oc hfail
    obtain ⟨code, h0⟩ := hfail 0
    obtain ⟨code2, oc2, evs2, heq, hlen⟩ :=
      ih (fun i => fetch (i + 1)) 3 (retry_countdown oc code T).1
        (fun n => hfail (n + 1))
    refine ⟨code2, oc2, (retry_countdown oc code T).2 ++ evs2, ?_, ?_⟩
    · simp only [get_spots, h0, heq]
    · rw [statusTexts_append, List.length_append, retry_countdown_statusTexts,
        countdownMsgs_length, hlen, backoffTotal_default]
      rfl

theorem get_spots_success {α : Type} :
    ∀ (k : Nat) (fetch : Nat → FetchResult α) (R T : Nat) (oc : OutputController)
      (resp : α),
      (∀ n, n < k → ∃ code, fetch n = FetchResult.requestFailed code) →
      fetch k = FetchResult.ok resp → k ≤ R →
      ∃ oc2 evs,
        get_spots fetch R T oc = (Except.ok resp, k + 1, oc2, evs) ∧
        (statusTexts evs).length = backoffTotal k T := by
  intro k
  induction k with
  | zero =>
    intro fetch R T oc resp hfail h0 hk
    refine ⟨oc, [], ?_, ?_⟩
    · simp only [get_spots, h0]
    · simp [backoffTotal]
  | succ j ih =>
    intro fetch R T oc resp hfail hsucc hk
    obtain ⟨code, h0⟩ := hfail 0 (Nat.succ_pos j)
    obtain ⟨r, rfl⟩ : ∃ r, R = r + 1 := ⟨R - 1, by omega⟩
    obtain ⟨oc2, evs2, heq, hlen⟩ :=
      ih (fun i => fetch (i + 1)) r 3 (retry_countdown oc code T).1 resp
        (fun n hn => hfail (n + 1) (by omega)) hsucc (by omega)
    refine ⟨oc2, (retry_countdown oc code T).2 ++ evs2, ?_, ?_⟩
    · simp only [get_spots, h0, heq]
    · rw [statusTexts_append, List.length_append, retry_countdown_statusTexts,
        countdownMsgs_length, hlen, backoffTotal_default]
      rfl

/-- C5: for every interleaving of `print_status` and `echo` calls from the
initial state, every `echo` text appears on the normal output channel in
order, no normal line is ever immediately followed by the erase control
sequence, any call made while the last write was a status line first emits
exactly one erase sequence, and the concrete sequence
print_status "A"; echo "B"; print_status "C" yields exactly the normal
line "B" and leaves only "C" visible on the status channel. -/
theorem outputController_discipline (trace : List OutCall) :
    normalTexts (runCalls ⟨false⟩ trace).2 = echoTexts trace
    ∧ noEraseAfterNormal (runCalls ⟨false⟩ trace).2 = true
    ∧ (∀ (oc : OutputController) (t : String) (e : Bool) (c : OutCall),
        ((stepCall (stepCall oc (OutCall.callStatus t e)).1 c).2).head? =
            some OutEvent.eraseStatus
        ∧ countErase ((stepCall (stepCall oc (OutCall.callStatus t e)).1 c).2) = 1)
    ∧ runCalls ⟨false⟩
        [OutCall.callStatus "A" false, OutCall.callEcho "B",
          OutCall.callStatus "C" false] =
      (⟨true⟩, [OutEvent.statusLine "A" false, OutEvent.eraseStatus,
        OutEvent.normalLine "B", OutEvent.statusLine "C" false])
    ∧ normalTexts [OutEvent.statusLine "A" false, OutEvent.eraseStatus,
        OutEvent.normalLine "B", OutEvent.statusLine "C" false] = ["B"]
    ∧ visibleStatus [OutEvent.statusLine "A" false, OutEvent.eraseStatus,
        OutEvent.normalLine "B", OutEvent.statusLine "C" false] = some "C" := by
  refine ⟨runCalls_normalTexts trace _, (runCalls_noErase trace _).1, ?_, rfl, rfl, rfl⟩
  intro oc t e c
  have h1 : (stepCall oc (OutCall.callStatus t e)).1 = ⟨true⟩ := rfl
  rw [h1]
  cases c with
  | callStatus t2 e2 => exact ⟨rfl, rfl⟩
  | callEcho t2 => exact ⟨rfl, rfl⟩

/-- C2 counterexample: with an always-failing oracle, `retries = 2` and
`retry_time = 1`, the program emits 4 backoff status updates (the first
countdown uses T = 1, but the recursive call at line 199 does not forward
`retry_time`, so the second countdown reverts to the default 3 and counts
down 3, 2, 1), not the 2 * 1 = 2 updates the claim's T-per-gap reading
predicts. -/
theorem get_spots_retry_time_counterexample :
    statusTexts (get_spots constFailFetch 2 1 ⟨false⟩).2.2.2 =
      countdownMsgs 500 1 ++ countdownMsgs 500 3
    ∧ (statusTexts (get_spots constFailFetch 2 1 ⟨false⟩).2.2.2).length = 4
    ∧ (statusTexts (get_spots constFailFetch 2 1 ⟨false⟩).2.2.2).length ≠ 2 * 1 := by
  refine ⟨?_, ?_, ?_⟩
  · decide
  · decide
  · decide

/-- C2 amended: when every attempt fails with `RequestFailed`, `get_spots`
with budget `R` and countdown `T` invokes the fetch exactly `R + 1` times
and surfaces the retryable failure; the first backoff countdown emits `T`
status updates counting down from `T` to 1, but because the recursive
call (line 199) does not forward `retry_time`, every later countdown uses
the default 3, for `T + (R - 1) * 3` updates in total (`backoffTotal`);
when some attempt `k <= R` succeeds after `k` retryable failures, the
fetch is invoked exactly `k + 1` times and that attempt's response is
returned at once. -/
theorem get_spots_retry_policy (fetch : Nat → FetchResult Response) (R T : Nat)
    (oc : OutputController)
    (hfail : ∀ n, ∃ code, fetch n = FetchResult.requestFailed code) :
    (∃ code oc2 evs,
        get_spots fetch R T oc =
          (Except.error (FetchError.requestFailed code), R + 1, oc2, evs)
        ∧ (statusTexts evs).length = backoffTotal R T)
    ∧ (∀ (oc3 : OutputController) (code k : Nat),
        statusTexts (retry_countdown oc3 code k).2 = countdownMsgs code k)
    ∧ (∀ (g : Nat → FetchResult Response) (k : Nat) (resp : Response),
        (∀ n, n < k → ∃ code, g n = FetchResult.requestFailed code) →
        g k = FetchResult.ok resp → k ≤ R →
        ∃ oc2 evs,
          get_spots g R T oc = (Except.ok resp, k + 1, oc2, evs)
          ∧ (statusTexts evs).length = backoffTotal k T) :=
  ⟨get_spots_allfail R fetch T oc hfail,
   fun oc3 code k => retry_countdown_statusTexts code k oc3,
   fun g k resp h1 h2 h3 => get_spots_success k g R T oc resp h1 h2 h3⟩

/-- Witness for the amended C2 at the concrete instance `max_retries = 2`,
`retry_time = 1`, with an oracle failing with status 500 on every attempt
(backoffTotal 2 1 = 1 + 3 = 4). -/
theorem get_spots_retry_policy_witness :
    (∀ n, ∃ code, constFailFetch n = FetchResult.requestFailed code)
    ∧ ((∃ code oc2 evs,
          get_spots constFailFetch 2 1 ⟨false⟩ =
            (Except.error (FetchError.requestFailed code), 2 + 1, oc2, evs)
          ∧ (statusTexts evs).length = backoffTotal 2 1)
      ∧ (∀ (oc3 : OutputController) (code k : Nat),
          statusTexts (retry_countdown oc3 code k).2 = countdownMsgs code k)
      ∧ (∀ (g : Nat → FetchResult Response) (k : Nat) (resp : Response),
          (∀ n, n < k → ∃ code, g n = FetchResult.requestFailed code) →
          g k = FetchResult.ok resp → k ≤ 2 →
          ∃ oc2 evs,
            get_spots g 2 1 ⟨false⟩ = (Except.ok resp, k + 1, oc2, evs)
            ∧ (statusTexts evs).length = backoffTotal k 1)) :=
  ⟨fun _ => ⟨500, rfl⟩,
   get_spots_retry_policy constFailFetch 2 1 ⟨false⟩ (fun _ => ⟨500, rfl⟩)⟩

/-- C3: a payload decode failure is not retried: the fetch is invoked
exactly once, no backoff status updates are emitted, and the failure
propagates immediately as a kind distinct from the retryable one. -/
theorem get_spots_decode_no_retry (fetch : Nat → FetchResult Response)
    (R T : Nat) (oc : OutputController)
    (h : fetch 0 = FetchResult.decodeFailed) :
    get_spots fetch R T oc = (Except.error FetchError.decodeFailed, 1, oc, [])
    ∧ ∀ code, (FetchError.decodeFailed : FetchError) ≠
        FetchError.requestFailed code := by
  refine ⟨?_, fun code h2 => by cases h2⟩
  simp only [get_spots, h]

/-- Witness for C3 with a concrete decode-failing oracle and the default
budget `retries = 5`, `retry_time = 3`. -/
theorem get_spots_decode_no_retry_witness :
    constDecodeFetch 0 = FetchResult.decodeFailed
    ∧ (get_spots constDecodeFetch 5 3 ⟨false⟩ =
        (Except.error FetchError.decodeFailed, 1, ⟨false⟩, [])
      ∧ ∀ code, (FetchError.decodeFailed : FetchError) ≠
          FetchError.requestFailed code) :=
  ⟨rfl, get_spots_decode_no_retry constDecodeFetch 5 3 ⟨false⟩ rfl⟩

/-! ### The watch loop body -/

theorem foldl_insert_ids (l : List SpotInfo) :
    ∀ seen : Finset String,
      l.foldl (fun s sp => insert sp.id s) seen =
        seen ∪ (spot_ids l).toFinset := by
  induction l with
  | nil => intro seen; simp [spot_ids]
  | cons sp rest ih =>
    intro seen
    simp only [List.foldl_cons, ih, spot_ids, List.map_cons, List.toFinset_cons]
    ext x
    simp only [Finset.mem_union, Finset.mem_insert, List.mem_toFinset]
    tauto

theorem watch_emit_spec (gd : ℚ × ℚ → ℚ × ℚ → String)
    (cs : String → Option CallInfo) :
    ∀ (l : List SpotInfo) (seen : Finset String) (oc : OutputController),
      (∀ spot ∈ l, (format_spot gd spot cs).isSome) →
      ∃ oc2 evs,
        watch_emit gd cs l seen oc =
          some (l.foldl (fun s sp => insert sp.id s) seen, oc2, evs)
        ∧ normalTexts evs = l.map (fun sp => (format_spot gd sp cs).getD "")
        ∧ statusTexts evs = []
        ∧ (l = [] → oc2 = oc) ∧ (l ≠ [] → oc2 = ⟨false⟩) := by
  intro l
  induction l with
  | nil =>
    intro seen oc _
    exact ⟨oc, [], rfl, rfl, rfl, fun _ => rfl, fun h2 => absurd rfl h2⟩
  | cons spot rest ih =>
    intro seen oc h
    have hs : (format_spot gd spot cs).isSome :=
      h spot (List.mem_cons_self spot rest)
    obtain ⟨line, hline⟩ := Option.isSome_iff_exists.mp hs
    obtain ⟨oc2, evs2, heq, hnorm, hstat, hnil, hne⟩ :=
      ih (insert spot.id seen) (echo oc line).1
        (fun sp hsp => h sp (List.mem_cons_of_mem _ hsp))
    have hoc2 : oc2 = ⟨false⟩ := by
      cases rest with
      | nil => rw [hnil rfl, echo_fst]
      | cons a b => exact hne (by simp)
    refine ⟨oc2, (echo oc line).2 ++ evs2, ?_, ?_, ?_, ?_, fun _ => hoc2⟩
    · simp only [watch_emit, hline, heq, List.foldl_cons]
    · rw [normalTexts_append, normalTexts_echo, hnorm]
      simp [hline]
    · rw [statusTexts_append, statusTexts_echo, hstat]
      rfl
    · intro h2; cases h2

theorem watch_success_spec (gd : ℚ × ℚ → ℚ × ℚ → String) (seen : Finset String)
    (oc : OutputController) (ts : String) (resp : Response)
    (hfmt : ∀ spot ∈ new_spots_of seen resp,
      (format_spot gd spot resp.callsigns).isSome) :
    ∃ oc2 evs,
      watch_body gd seen oc ts (WatchOutcome.success resp) =
        some (seen ∪ (spot_ids (new_spots_of seen resp)).toFinset, oc2, evs)
      ∧ normalTexts evs =
          (if (new_spots_of seen resp).length > 0 then
            ["Received " ++ toString (new_spots_of seen resp).length ++
              " new spots at " ++ ts]
          else []) ++
          (new_spots_of seen resp).map
            (fun sp => (format_spot gd sp resp.callsigns).getD "")
      ∧ statusTexts evs = ["Latest update: " ++ ts]
      ∧ (∃ p, evs = p ++ [OutEvent.statusLine ("Latest update: " ++ ts) false])
      ∧ oc2 = ⟨true⟩ := by
  by_cases hl : (new_spots_of seen resp).length > 0
  · obtain ⟨ocE, evsE, heq, hnorm, hstat, _, _⟩ :=
      watch_emit_spec gd resp.callsigns (new_spots_of seen resp) seen
        (echo oc ("Received " ++ toString (new_spots_of seen resp).length ++
          " new spots at " ++ ts)).1 hfmt
    rw [foldl_insert_ids] at heq
    refine ⟨⟨true⟩,
      (echo oc ("Received " ++ toString (new_spots_of seen resp).length ++
        " new spots at " ++ ts)).2 ++ evsE ++
        (print_status ocE ("Latest update: " ++ ts) false).2, ?_, ?_, ?_, ?_, rfl⟩
    · simp only [watch_body, if_pos hl, heq, print_status_fst]
    · rw [normalTexts_append, normalTexts_append, normalTexts_echo,
        normalTexts_print_status, hnorm, if_pos hl]
      simp
    · rw [statusTexts_append, statusTexts_append, statusTexts_echo,
        statusTexts_print_status, hstat]
      rfl
    · refine ⟨(echo oc ("Received " ++ toString (new_spots_of seen resp).length ++
        " new spots at " ++ ts)).2 ++ evsE ++
        (if ocE.last_is_status then [OutEvent.eraseStatus] else []), ?_⟩
      rw [print_status_eq]
      simp [List.append_assoc]
  · have hnil : new_spots_of seen resp = [] := by
      rw [← List.length_eq_zero]
      omega
    refine ⟨⟨true⟩, (print_status oc ("Latest update: " ++ ts) false).2, ?_, ?_, ?_, ?_, rfl⟩
    · simp only [watch_body, hnil, List.length_nil, gt_iff_lt, Nat.lt_irrefl,
        if_false, print_status_fst, spot_ids, List.map_nil, List.toFinset_nil,
        Finset.union_empty]
    · rw [normalTexts_print_status, hnil]
      simp
    · rw [statusTexts_print_status]
    · refine ⟨if oc.last_is_status then [OutEvent.eraseStatus] else [], ?_⟩
      rw [print_status_eq]

theorem watch_emit_seen (gd : ℚ × ℚ → ℚ × ℚ → String)
    (cs : String → Option CallInfo) :
    ∀ (l : List SpotInfo) (seen : Finset String) (oc : OutputController)
      (s2 : Finset String) (oc2 : OutputController) (evs2 : List OutEvent),
      watch_emit gd cs l seen oc = some (s2, oc2, evs2) →
      s2 = l.foldl (fun s sp => insert sp.id s) seen := by
  intro l
  induction l with
  | nil =>
    intro seen oc s2 oc2 evs2 h
    simp only [watch_emit, Option.some.injEq, Prod.mk.injEq] at h
    exact h.1.symm
  | cons spot rest ih =>
    intro seen oc s2 oc2 evs2 h
    cases hf : format_spot gd spot cs with
    | none =>
      simp only [watch_emit, hf] at h
      exact Option.noConfusion h
    | some line =>
      simp only [watch_emit, hf] at h
      cases hr : watch_emit gd cs rest (insert spot.id seen) (echo oc line).1 with
      | none => rw [hr] at h; exact Option.noConfusion h
      | some r =>
        rw [hr] at h
        simp only [Option.some.injEq, Prod.mk.injEq] at h
        obtain ⟨h1, _, _⟩ := h
        rw [List.foldl_cons, ← h1]
        exact ih (insert spot.id seen) (echo oc line).1 r.1 r.2.1 r.2.2 hr

theorem watch_body_success_seen (gd : ℚ × ℚ → ℚ × ℚ → String)
    (seen : Finset String) (oc : OutputController) (ts : String)
    (resp : Response) (s1 : Finset String) (oc1 : OutputController)
    (evs1 : List OutEvent)
    (h : watch_body gd seen oc ts (WatchOutcome.success resp) =
      some (s1, oc1, evs1)) :
    s1 = seen ∪ (spot_ids (new_spots_of seen resp)).toFinset := by
  by_cases hl : (new_spots_of seen resp).length > 0
  · simp only [watch_body] at h
    rw [if_pos hl] at h
    cases hr : watch_emit gd resp.callsigns (new_spots_of seen resp) seen
        (echo oc ("Received " ++ toString (new_spots_of seen resp).length ++
          " new spots at " ++ ts)).1 with
    | none => rw [hr] at h; exact Option.noConfusion h
    | some r =>
      rw [hr] at h
      simp only [Option.some.injEq, Prod.mk.injEq] at h
      obtain ⟨h1, _, _⟩ := h
      rw [← h1,
        watch_emit_seen gd resp.callsigns _ _ _ r.1 r.2.1 r.2.2 hr,
        foldl_insert_ids]
  · have hnil : new_spots_of seen resp = [] := by
      rw [← List.length_eq_zero]
      omega
    simp only [watch_body] at h
    rw [if_neg hl] at h
    simp only [Option.some.injEq, Prod.mk.injEq] at h
    obtain ⟨h1, _, _⟩ := h
    rw [← h1, hnil]
    simp [spot_ids]

/-! ### The power color table and the spot formatter -/

theorem powerColors_length : powerColors.length = 65 := rfl

theorem powerIndex_le (p : Int) : powerIndex p ≤ 64 := by
  have h2 : ((powerColors.length : Int) - 1) = 64 := by
    rw [powerColors_length]
    norm_num
  have h1 : min (max 0 p) ((powerColors.length : Int) - 1) ≤
      (powerColors.length : Int) - 1 := min_le_right _ _
  rw [h2] at h1
  unfold powerIndex
  rw [h2]
  omega

theorem powerIndex_lt (p : Int) : powerIndex p < powerColors.length := by
  rw [powerColors_length]
  have := powerIndex_le p
  omega

theorem get_power_color_mem (p : Int) :
    ∃ c, get_power_color p = some c ∧ c ∈ powerColors := by
  have h := powerIndex_lt p
  refine ⟨powerColors.get ⟨powerIndex p, h⟩, ?_, List.get_mem _ _ _⟩
  rw [get_power_color, List.get?_eq_get h]

/-- C10 counterexample: the color table has 65 entries, not 64, and the
clamped index reaches 64 (for instance at snr = 100), outside the range
[0, 63] asserted by the claim. -/
theorem power_color_table_counterexample :
    powerIndex 100 = 64 ∧ powerColors.length = 65 := by
  constructor
  · decide
  · rfl

/-- C10 amended: `_get_power_color` clamps every integer signal-to-noise
value into the valid index range [0, 64] of its 65-entry color table and
returns a table entry without an out-of-bounds access, so `format_power`
is total over all integer inputs. -/
theorem power_color_clamp_total (p : Int) :
    powerIndex p < powerColors.length
    ∧ (∃ c, get_power_color p = some c ∧ c ∈ powerColors)
    ∧ (format_power p).isSome := by
  refine ⟨powerIndex_lt p, get_power_color_mem p, ?_⟩
  obtain ⟨c, hc, _⟩ := get_power_color_mem p
  simp [format_power, hc]

/-- C9 counterexample: with a callsign directory that does not contain the
spot's transmitter callsign, `format_spot` raises `KeyError`
(modelled as `none`), so it does not return a string for every record and
every directory. -/
theorem format_spot_missing_callsign :
    format_spot get_distance spotX noCallsigns = none := rfl

/-- C9 amended: `format_spot` returns a string without raising for every
record and distance function, whenever the supplied directory contains
entries for both the transmitter (`spot_dx`) and receiver (`spot_de`)
callsigns of the record. -/
theorem format_spot_total_of_present (gd : ℚ × ℚ → ℚ × ℚ → String)
    (spot : SpotInfo) (callsigns : String → Option CallInfo)
    (ci1 ci2 : CallInfo)
    (hdx : callsigns spot.spot_dx = some ci1)
    (hde : callsigns spot.spot_de = some ci2) :
    (format_spot gd spot callsigns).isSome := by
  obtain ⟨c, hc, _⟩ := get_power_color_mem spot.snr
  simp [format_spot, hdx, hde, format_power, hc]

/-- Witness for the amended C9 at a concrete record and directory. -/
theorem format_spot_total_of_present_witness :
    sampleCallsigns spotX.spot_dx = some sampleCallW
    ∧ sampleCallsigns spotX.spot_de = some sampleCallK
    ∧ (format_spot get_distance spotX sampleCallsigns).isSome :=
  ⟨by decide, by decide,
   format_spot_total_of_present get_distance spotX sampleCallsigns
     sampleCallW sampleCallK (by decide) (by decide)⟩

/-! ### Claims about the watch cycle -/

/-- C1: one successful watch cycle echoes a line for exactly the records of
the batch whose id is not yet in the seen set, in batch order (after the
header line when there are any), and afterwards the seen set is the old
set united with the ids of the emitted records. -/
theorem watch_cycle_new_records (gd : ℚ × ℚ → ℚ × ℚ → String)
    (seen : Finset String) (oc : OutputController) (ts : String)
    (resp : Response)
    (hfmt : ∀ spot ∈ new_spots_of seen resp,
      (format_spot gd spot resp.callsigns).isSome) :
    ∃ oc2 evs,
      watch_body gd seen oc ts (WatchOutcome.success resp) =
        some (seen ∪ (spot_ids (new_spots_of seen resp)).toFinset, oc2, evs)
      ∧ normalTexts evs =
          (if (new_spots_of seen resp).length > 0 then
            ["Received " ++ toString (new_spots_of seen resp).length ++
              " new spots at " ++ ts]
          else []) ++
          (new_spots_of seen resp).map
            (fun sp => (format_spot gd sp resp.callsigns).getD "") := by
  obtain ⟨oc2, evs, h1, h2, _⟩ := watch_success_spec gd seen oc ts resp hfmt
  exact ⟨oc2, evs, h1, h2⟩

/-- Witness for C1 at the concrete instance Seen-Set = `{x}` and batch
`[spotX (id x), spotY (id y)]`: the filter keeps exactly `spotY`, so
exactly one record line (for y) is emitted. -/
theorem watch_cycle_new_records_witness :
    (∀ spot ∈ new_spots_of (insert "x" (∅ : Finset String)) sampleResp,
      (format_spot get_distance spot sampleResp.callsigns).isSome)
    ∧ (∃ oc2 evs,
        watch_body get_distance (insert "x" (∅ : Finset String)) ⟨false⟩ "T"
            (WatchOutcome.success sampleResp) =
          some (insert "x" (∅ : Finset String) ∪
            (spot_ids (new_spots_of (insert "x" (∅ : Finset String))
              sampleResp)).toFinset, oc2, evs)
        ∧ normalTexts evs =
            (if (new_spots_of (insert "x" (∅ : Finset String))
                sampleResp).length > 0 then
              ["Received " ++ toString (new_spots_of
                (insert "x" (∅ : Finset String)) sampleResp).length ++
                " new spots at " ++ "T"]
            else []) ++
            (new_spots_of (insert "x" (∅ : Finset String)) sampleResp).map
              (fun sp => (format_spot get_distance sp sampleResp.callsigns).getD ""))
    ∧ new_spots_of (insert "x" (∅ : Finset String)) sampleResp = [spotY] :=
  ⟨by decide,
   watch_cycle_new_records get_distance (insert "x" (∅ : Finset String))
     ⟨false⟩ "T" sampleResp (by decide),
   by decide⟩

/-- C4: when `get_spots` ultimately raises `RequestFailed`, the watch cycle
catches it (the body returns normally), echoes no normal output line,
reports exactly one failure status update, and leaves the seen set
unchanged. -/
theorem watch_failed_cycle (gd : ℚ × ℚ → ℚ × ℚ → String)
    (seen : Finset String) (oc : OutputController) (ts : String) :
    watch_body gd seen oc ts WatchOutcome.failed =
      some (seen, ⟨true⟩,
        (if oc.last_is_status then [OutEvent.eraseStatus] else []) ++
          [OutEvent.statusLine "All requests failed" true])
    ∧ normalTexts
        ((if oc.last_is_status then [OutEvent.eraseStatus] else []) ++
          [OutEvent.statusLine "All requests failed" true]) = []
    ∧ statusTexts
        ((if oc.last_is_status then [OutEvent.eraseStatus] else []) ++
          [OutEvent.statusLine "All requests failed" true]) =
        ["All requests failed"] := by
  refine ⟨?_, ?_, ?_⟩
  · simp only [watch_body, print_status_eq]
  · cases oc.last_is_status <;> simp
  · cases oc.last_is_status <;> simp

/-- C6: if a successful cycle on batch `resp` is immediately followed by a
second successful cycle on the same batch, the second cycle emits no
normal output at all (no record lines and no header line), emits exactly
one status update, and leaves the seen set exactly as the first cycle
left it. -/
theorem watch_dedup_idempotent (gd : ℚ × ℚ → ℚ × ℚ → String)
    (seen : Finset String) (oc : OutputController) (ts1 ts2 : String)
    (resp : Response) (s1 : Finset String) (oc1 : OutputController)
    (evs1 : List OutEvent)
    (h1 : watch_body gd seen oc ts1 (WatchOutcome.success resp) =
      some (s1, oc1, evs1)) :
    watch_body gd s1 oc1 ts2 (WatchOutcome.success resp) =
      some (s1, ⟨true⟩, (print_status oc1 ("Latest update: " ++ ts2) false).2)
    ∧ normalTexts (print_status oc1 ("Latest update: " ++ ts2) false).2 = []
    ∧ (statusTexts (print_status oc1 ("Latest update: " ++ ts2) false).2).length
        = 1 := by
  have hs1 := watch_body_success_seen gd seen oc ts1 resp s1 oc1 evs1 h1
  have hnil2 : new_spots_of s1 resp = [] := by
    rw [new_spots_of]
    rw [List.filter_eq_nil]
    intro sp hsp
    simp only [decide_eq_true_eq, not_not]
    rw [hs1]
    by_cases hmem : sp.id ∈ seen
    · exact Finset.mem_union_left _ hmem
    · refine Finset.mem_union_right _ ?_
      rw [List.mem_toFinset, spot_ids]
      refine List.mem_map_of_mem SpotInfo.id ?_
      rw [new_spots_of]
      exact List.mem_filter.mpr ⟨hsp, by simp [hmem]⟩
  refine ⟨?_, normalTexts_print_status _ _ _, ?_⟩
  · simp only [watch_body, hnil2, List.length_nil, gt_iff_lt, Nat.lt_irrefl,
      if_false, print_status_fst]
  · rw [statusTexts_print_status]
    rfl

/-- Witness for C6: the sample batch fed to a cycle whose seen set already
contains both identifiers, then fed again. -/
theorem watch_dedup_idempotent_witness :
    watch_body get_distance seenXY ⟨false⟩ "T1" (WatchOutcome.success sampleResp)
      = some (seenXY, ⟨true⟩, [OutEvent.statusLine "Latest update: T1" false])
    ∧ (watch_body get_distance seenXY ⟨true⟩ "T2" (WatchOutcome.success sampleResp)
        = some (seenXY, ⟨true⟩,
            (print_status ⟨true⟩ ("Latest update: " ++ "T2") false).2)
      ∧ normalTexts (print_status ⟨true⟩ ("Latest update: " ++ "T2") false).2 = []
      ∧ (statusTexts
          (print_status ⟨true⟩ ("Latest update: " ++ "T2") false).2).length = 1) :=
  ⟨by decide,
   watch_dedup_idempotent get_distance seenXY ⟨false⟩ "T1" "T2" sampleResp
     seenXY ⟨true⟩ [OutEvent.statusLine "Latest update: T1" false] (by decide)⟩

theorem received_ne_latest (x y : String) :
    ("Received " ++ x) ≠ ("Latest update: " ++ y) := by
  intro h
  have h2 : ("Received " ++ x).data = ("Latest update: " ++ y).data :=
    congrArg String.data h
  rw [String.data_append, String.data_append] at h2
  simp at h2

/-- C7 counterexample: in a concrete successful cycle with one new record,
the "Received N new spots" header appears among the normal output lines
and not among the status-channel texts, so it is not written as a status
update on the ephemeral status channel. -/
theorem watch_header_channel_counterexample :
    "Received 1 new spots at T" ∈
      normalTexts (eventsOf (watch_body get_distance ∅ ⟨false⟩ "T"
        (WatchOutcome.success respOne)))
    ∧ "Received 1 new spots at T" ∉
      statusTexts (eventsOf (watch_body get_distance ∅ ⟨false⟩ "T"
        (WatchOutcome.success respOne))) := by
  constructor
  · decide
  · decide

/-- C7 amended: when a successful cycle has new records, the
"Received N new spots at <timestamp>" header is written as a normal output
line (via `echo`), it precedes the record lines, and it does not appear on
the status channel (whose only text that cycle is the Latest-update line);
a cycle with no new records writes no header at all. -/
theorem watch_header_is_normal_line (gd : ℚ × ℚ → ℚ × ℚ → String)
    (seen : Finset String) (oc : OutputController) (ts : String)
    (resp : Response)
    (hfmt : ∀ spot ∈ new_spots_of seen resp,
      (format_spot gd spot resp.callsigns).isSome) :
    ∃ oc2 evs,
      watch_body gd seen oc ts (WatchOutcome.success resp) =
        some (seen ∪ (spot_ids (new_spots_of seen resp)).toFinset, oc2, evs)
      ∧ statusTexts evs = ["Latest update: " ++ ts]
      ∧ ((new_spots_of seen resp).length > 0 →
          normalTexts evs =
            ("Received " ++ toString (new_spots_of seen resp).length ++
              " new spots at " ++ ts) ::
            (new_spots_of seen resp).map
              (fun sp => (format_spot gd sp resp.callsigns).getD "")
          ∧ ("Received " ++ toString (new_spots_of seen resp).length ++
              " new spots at " ++ ts) ∉ statusTexts evs)
      ∧ ((new_spots_of seen resp).length = 0 → normalTexts evs = []) := by
  obtain ⟨oc2, evs, h1, h2, h3, _, _⟩ := watch_success_spec gd seen oc ts resp hfmt
  refine ⟨oc2, evs, h1, h3, ?_, ?_⟩
  · intro hl
    constructor
    · rw [h2, if_pos hl]
      rfl
    · rw [h3]
      intro hmem
      simp only [List.mem_singleton] at hmem
      exact received_ne_latest _ _ hmem
  · intro hl0
    have hn : new_spots_of seen resp = [] := by
      rw [← List.length_eq_zero]
      exact hl0
    rw [h2, if_neg (by omega), hn]
    rfl

/-- Witness for the amended C7 with one unseen record in the batch. -/
theorem watch_header_is_normal_line_witness :
    (∀ spot ∈ new_spots_of (∅ : Finset String) respOne,
      (format_spot get_distance spot respOne.callsigns).isSome)
    ∧ ∃ oc2 evs,
      watch_body get_distance ∅ ⟨false⟩ "T" (WatchOutcome.success respOne) =
        some ((∅ : Finset String) ∪
          (spot_ids (new_spots_of (∅ : Finset String) respOne)).toFinset,
          oc2, evs)
      ∧ statusTexts evs = ["Latest update: " ++ "T"]
      ∧ ((new_spots_of (∅ : Finset String) respOne).length > 0 →
          normalTexts evs =
            ("Received " ++
              toString (new_spots_of (∅ : Finset String) respOne).length ++
              " new spots at " ++ "T") ::
            (new_spots_of (∅ : Finset String) respOne).map
              (fun sp => (format_spot get_distance sp respOne.callsigns).getD "")
          ∧ ("Received " ++
              toString (new_spots_of (∅ : Finset String) respOne).length ++
              " new spots at " ++ "T") ∉ statusTexts evs)
      ∧ ((new_spots_of (∅ : Finset String) respOne).length = 0 →
          normalTexts evs = []) :=
  ⟨by decide,
   watch_header_is_normal_line get_distance ∅ ⟨false⟩ "T" respOne (by decide)⟩

/-- C8 counterexample: on a cycle whose fetch ultimately failed, the single
refreshed status line is the fixed text "All requests failed", which does
not carry the cycle's timestamp (the timestamp string does not occur in
it), contradicting the claim that a timestamped "last updated / last
failed" line is refreshed after every cycle. -/
theorem watch_failed_status_counterexample :
    watch_body get_distance ∅ ⟨false⟩ "2024-01-01 00:00:00" WatchOutcome.failed =
      some (∅, ⟨true⟩, [OutEvent.statusLine "All requests failed" true])
    ∧ ¬ List.IsInfix "2024-01-01 00:00:00".data "All requests failed".data := by
  exact ⟨rfl, by decide⟩

/-- C8 amended: after a successful cycle exactly one
"Latest update: <timestamp>" status line is refreshed as the cycle's final
write; after a failed cycle exactly one "All requests failed" status line
(carrying no timestamp) is refreshed as the final write instead. -/
theorem watch_status_line_refresh (gd : ℚ × ℚ → ℚ × ℚ → String)
    (seen : Finset String) (oc : OutputController) (ts : String)
    (resp : Response)
    (hfmt : ∀ spot ∈ new_spots_of seen resp,
      (format_spot gd spot resp.callsigns).isSome) :
    (∃ oc2 evs,
      watch_body gd seen oc ts (WatchOutcome.success resp) =
        some (seen ∪ (spot_ids (new_spots_of seen resp)).toFinset, oc2, evs)
      ∧ statusTexts evs = ["Latest update: " ++ ts]
      ∧ ∃ p, evs = p ++ [OutEvent.statusLine ("Latest update: " ++ ts) false])
    ∧ (∃ evs2,
      watch_body gd seen oc ts WatchOutcome.failed = some (seen, ⟨true⟩, evs2)
      ∧ statusTexts evs2 = ["All requests failed"]
      ∧ ∃ q, evs2 = q ++ [OutEvent.statusLine "All requests failed" true]) := by
  constructor
  · obtain ⟨oc2, evs, h1, _, h3, h4, _⟩ := watch_success_spec gd seen oc ts resp hfmt
    exact ⟨oc2, evs, h1, h3, h4⟩
  · refine ⟨(print_status oc "All requests failed" true).2, ?_,
      statusTexts_print_status _ _ _, ?_⟩
    · simp only [watch_body, print_status_fst]
    · refine ⟨if oc.last_is_status then [OutEvent.eraseStatus] else [], ?_⟩
      rw [print_status_eq]

/-- Witness for the amended C8 with a concrete batch and timestamp. -/
theorem watch_status_line_refresh_witness :
    (∀ spot ∈ new_spots_of (∅ : Finset String) respOne,
      (format_spot get_distance spot respOne.callsigns).isSome)
    ∧ ((∃ oc2 evs,
        watch_body get_distance ∅ ⟨false⟩ "T" (WatchOutcome.success respOne) =
          some ((∅ : Finset String) ∪
            (spot_ids (new_spots_of (∅ : Finset String) respOne)).toFinset,
            oc2, evs)
        ∧ statusTexts evs = ["Latest update: " ++ "T"]
        ∧ ∃ p, evs = p ++ [OutEvent.statusLine ("Latest update: " ++ "T") false])
      ∧ (∃ evs2,
        watch_body get_distance ∅ ⟨false⟩ "T" WatchOutcome.failed =
          some (∅, ⟨true⟩, evs2)
        ∧ statusTexts evs2 = ["All requests failed"]
        ∧ ∃ q, evs2 = q ++ [OutEvent.statusLine "All requests failed" true])) :=
  ⟨by decide,
   watch_status_line_refresh get_distance ∅ ⟨false⟩ "T" respOne (by decide)⟩
